import Mathlib

/-!
Verification development for the building HVAC simulator
(src/simulators/building/simulator.py).

Modelling conventions:
* Python floats are embedded as rationals (every arithmetic operation used by
  the simulator is rational, so the embedding is exact up to floating point
  rounding, which the claims do not mention).
* All randomness (random.random, random.uniform) and the wall clock
  (datetime.now) are embedded as explicit per-tick inputs collected in `Env`:
  one field per random draw / clock-derived quantity.  `Env.Valid` records the
  ranges the Python `random.uniform` calls guarantee, and the fact that
  `sin` of anything lies in [-1, 1].
* The six parallel zone lists become functions `Fin 6 → ℚ`; the Python
  `for i in range(6)` loop in `update_vavs` becomes a left fold over
  `List.finRange 6`, with the loop body `update_vav_zone` updating exactly the
  slots of index `i`, as the source does.
* The BACnet point lists of the four equipment profiles become structures with
  one field per point, in creation order; `update_objects` becomes a pure
  function returning the new (state, objects) pair.
-/

/-- Update interval in seconds (simulator.py line 41: INTERVAL = 5.0). -/
def INTERVAL : ℚ := 5

/-- Sum of the six entries of a zone array
(`sum(self.vav_zone_temps)` etc. in the source, lists of length 6). -/
def sumZones (f : Fin 6 → ℚ) : ℚ := f 0 + f 1 + f 2 + f 3 + f 4 + f 5

/-- Shared state for the entire building simulation
(class BuildingState, simulator.py lines 54-88). -/
structure BuildingState where
  outdoor_temp : ℚ
  is_occupied : Bool
  chilled_water_supply_temp : ℚ
  chilled_water_return_temp : ℚ
  hot_water_supply_temp : ℚ
  hot_water_return_temp : ℚ
  ahu_supply_air_temp : ℚ
  ahu_return_air_temp : ℚ
  ahu_mixed_air_temp : ℚ
  ahu_supply_air_flow : ℚ
  ahu_fan_speed : ℚ
  ahu_cooling_valve : ℚ
  ahu_heating_valve : ℚ
  ahu_supply_air_setpoint : ℚ
  vav_zone_temps : Fin 6 → ℚ
  vav_zone_setpoints : Fin 6 → ℚ
  vav_damper_positions : Fin 6 → ℚ
  vav_airflows : Fin 6 → ℚ
  vav_reheat_valves : Fin 6 → ℚ
  total_power : ℚ
  total_energy : ℚ

/-- Default values from BuildingState.__init__ (simulator.py lines 57-88). -/
def BuildingState.init : BuildingState where
  outdoor_temp := 85
  is_occupied := true
  chilled_water_supply_temp := 44
  chilled_water_return_temp := 54
  hot_water_supply_temp := 180
  hot_water_return_temp := 160
  ahu_supply_air_temp := 55
  ahu_return_air_temp := 72
  ahu_mixed_air_temp := 65
  ahu_supply_air_flow := 12000
  ahu_fan_speed := 75
  ahu_cooling_valve := 50
  ahu_heating_valve := 0
  ahu_supply_air_setpoint := 55
  vav_zone_temps := fun _ => 72
  vav_zone_setpoints := fun _ => 72
  vav_damper_positions := fun _ => 50
  vav_airflows := fun _ => 2000
  vav_reheat_valves := fun _ => 0
  total_power := 0
  total_energy := 0

/-- Per-tick external inputs: the outcome of every random draw and every
clock-derived quantity consumed by one call to BuildingState.update.
`occupied` is the boolean produced by update_occupancy; `sinVal` stands for
`sin((hour - 6) * pi / 12)` in update_outdoor_temp; the remaining fields are
the values of the `random.uniform` calls, in source order. -/
structure Env where
  occupied : Bool
  sinVal : ℚ
  outdoorNoise : ℚ
  fanNoise : ℚ
  zoneLoadNoise : Fin 6 → ℚ
  chwSupplyNoise : ℚ
  chwReturnNoise : ℚ
  miscNoise : ℚ

/-- Ranges that the Python runtime guarantees for the inputs of one tick:
`sin` lies in [-1, 1] and each `random.uniform(a, b)` lies in [a, b]
(the misc-power noise range depends on occupancy, lines 213-216). -/
def Env.Valid (e : Env) : Prop :=
  (-1 ≤ e.sinVal ∧ e.sinVal ≤ 1) ∧
  (-2 ≤ e.outdoorNoise ∧ e.outdoorNoise ≤ 2) ∧
  (-5 ≤ e.fanNoise ∧ e.fanNoise ≤ 5) ∧
  (∀ i : Fin 6, -(1/5) ≤ e.zoneLoadNoise i ∧ e.zoneLoadNoise i ≤ 1/5) ∧
  (-1 ≤ e.chwSupplyNoise ∧ e.chwSupplyNoise ≤ 1) ∧
  (-1 ≤ e.chwReturnNoise ∧ e.chwReturnNoise ≤ 1) ∧
  (if e.occupied then -5 ≤ e.miscNoise ∧ e.miscNoise ≤ 5
   else -2 ≤ e.miscNoise ∧ e.miscNoise ≤ 2)

/-- update_occupancy (lines 97-104): the business-hours check and the random
draw together produce a boolean, embedded as the input `e.occupied`. -/
def BuildingState.update_occupancy (s : BuildingState) (e : Env) : BuildingState :=
  { s with is_occupied := e.occupied }

/-- update_outdoor_temp (lines 106-116):
`outdoor = 75 + 15 * sin((hour - 6) * pi / 12) + uniform(-2, 2)`. -/
def BuildingState.update_outdoor_temp (s : BuildingState) (e : Env) : BuildingState :=
  { s with outdoor_temp := 75 + 15 * e.sinVal + e.outdoorNoise }

/-- update_ahu (lines 118-146), with the source's assignment order preserved:
mixed air uses the previous return air; the cooling valve is clamped to
[0, 100]; supply air uses the new mixed air and new valve; return air becomes
the zone-temperature average; fan speed gets its occupancy-dependent base plus
noise; supply airflow is fan speed times 160. -/
def BuildingState.update_ahu (s : BuildingState) (e : Env) : BuildingState :=
  let outdoor_damper : ℚ := if s.is_occupied then 20 else 10
  let mixed := s.ahu_return_air_temp * (100 - outdoor_damper) / 100
      + s.outdoor_temp * outdoor_damper / 100
  let temp_error := s.ahu_supply_air_temp - s.ahu_supply_air_setpoint
  let cooling_valve := max 0 (min 100 (s.ahu_cooling_valve + temp_error * 2))
  let cooling_effect := cooling_valve * (3/10)
  let supply := mixed - cooling_effect
  let return_air := sumZones s.vav_zone_temps / 6
  let fan := (if s.is_occupied then (75 : ℚ) else 40) + e.fanNoise
  let flow := fan * 160
  { s with
    ahu_mixed_air_temp := mixed
    ahu_cooling_valve := cooling_valve
    ahu_supply_air_temp := supply
    ahu_return_air_temp := return_air
    ahu_fan_speed := fan
    ahu_supply_air_flow := flow }

/-- Zone load for one iteration of the update_vavs loop (lines 151-157):
base load by occupancy, plus uniform(-0.2, 0.2) noise, plus 0.3 for
even-indexed (perimeter) zones. -/
def zone_load_calc (e : Env) (i : Fin 6) (occ : Bool) : ℚ :=
  (if occ then 1/2 else 1/10) + e.zoneLoadNoise i + (if (i : ℕ) % 2 = 0 then 3/10 else 0)

/-- New damper position of zone `i` (lines 160-165): integrating proportional
step `error * 3`, clamped to [20, 100]. -/
def zoneNewDamper (_e : Env) (i : Fin 6) (s : BuildingState) : ℚ :=
  max 20 (min 100 (s.vav_damper_positions i
    + (s.vav_zone_temps i - s.vav_zone_setpoints i) * 3))

/-- New zone temperature of zone `i` (lines 167-180): Euler step with heat
gain `load * 2` and cooling effect `(airflow/2000)*(temp - supply)*0.1`,
where airflow is the new damper position times 30. -/
def zoneNewTemp (e : Env) (i : Fin 6) (s : BuildingState) : ℚ :=
  s.vav_zone_temps i +
    (zone_load_calc e i s.is_occupied * 2 -
      (zoneNewDamper e i s * 30 / 2000)
        * (s.vav_zone_temps i - s.ahu_supply_air_temp) * (1/10)) * (INTERVAL / 60)

/-- New reheat valve of zone `i` (lines 182-186): compares the freshly
integrated zone temperature against setpoint minus 1; ramps by +5 capped at
100, or by -5 floored at 0. -/
def zoneNewReheat (e : Env) (i : Fin 6) (s : BuildingState) : ℚ :=
  if zoneNewTemp e i s < s.vav_zone_setpoints i - 1
  then min 100 (s.vav_reheat_valves i + 5)
  else max 0 (s.vav_reheat_valves i - 5)

/-- One iteration of the `for i in range(6)` loop of update_vavs
(lines 150-186): writes the four zone arrays at index `i` only. -/
def update_vav_zone (e : Env) (i : Fin 6) (s : BuildingState) : BuildingState :=
  { s with
    vav_damper_positions := Function.update s.vav_damper_positions i (zoneNewDamper e i s)
    vav_airflows := Function.update s.vav_airflows i (zoneNewDamper e i s * 30)
    vav_zone_temps := Function.update s.vav_zone_temps i (zoneNewTemp e i s)
    vav_reheat_valves := Function.update s.vav_reheat_valves i (zoneNewReheat e i s) }

/-- update_vavs (lines 148-186): the loop over the six zones. -/
def BuildingState.update_vavs (s : BuildingState) (e : Env) : BuildingState :=
  (List.finRange 6).foldl (fun t j => update_vav_zone e j t) s

/-- update_chiller (lines 188-199): two-state response on
`cooling_load = cooling_valve * 100` compared against 50. -/
def BuildingState.update_chiller (s : BuildingState) (e : Env) : BuildingState :=
  let cooling_load := s.ahu_cooling_valve * 100
  if cooling_load > 50 then
    { s with
      chilled_water_supply_temp := 42 + e.chwSupplyNoise
      chilled_water_return_temp := 52 + e.chwReturnNoise }
  else
    { s with
      chilled_water_supply_temp := 44 + e.chwSupplyNoise
      chilled_water_return_temp := 54 + e.chwReturnNoise }

/-- Fan power law (line 204): `(fan_speed / 100) ** 3 * 15` kW. -/
def ahu_fan_power (fan_speed : ℚ) : ℚ := (fan_speed / 100) ^ 3 * 15

/-- update_power (lines 201-219): total power is fan power plus chiller power
plus reheat power plus misc power; cumulative energy integrates total power
over the tick interval. -/
def BuildingState.update_power (s : BuildingState) (e : Env) : BuildingState :=
  let ahu_power := ahu_fan_power s.ahu_fan_speed
  let chiller_power := s.ahu_cooling_valve / 100 * 80
  let reheat_power := sumZones s.vav_reheat_valves / 100 * 2
  let misc_power := (if s.is_occupied then (50 : ℚ) else 10) + e.miscNoise
  let total := ahu_power + chiller_power + reheat_power + misc_power
  { s with
    total_power := total
    total_energy := s.total_energy + total * (INTERVAL / 3600) }

/-- update (lines 221-228): the six control-loop steps in source order. -/
def BuildingState.update (s : BuildingState) (e : Env) : BuildingState :=
  (((((s.update_occupancy e).update_outdoor_temp e).update_ahu e).update_vavs
    e).update_chiller e).update_power e

/-- Iterated ticks: apply update once per environment in the list. -/
def updateSeq (s : BuildingState) : List Env → BuildingState
  | [] => s
  | e :: es => updateSeq (s.update e) es

/-- States reachable from the default constructor by any number of update
ticks whose random draws lie in the ranges the runtime guarantees. -/
inductive Reachable : BuildingState → Prop
  | init : Reachable BuildingState.init
  | step (s : BuildingState) (e : Env) : Reachable s → e.Valid → Reachable (s.update e)

/-! ## Equipment profiles (point mapping)

Each profile's BACnet object list becomes a structure with one field per
object, in creation order; binary present values ("active"/"inactive")
become booleans. -/

/-- AHUProfile object list (lines 241-314), in order: supply air temp,
return air temp, mixed air temp, supply air flow, supply air setpoint
(commandable), fan speed command, cooling valve, fan status, enable. -/
structure AHUObjects where
  supply_air_temp : ℚ
  return_air_temp : ℚ
  mixed_air_temp : ℚ
  supply_air_flow : ℚ
  supply_air_setpoint : ℚ
  fan_speed : ℚ
  cooling_valve : ℚ
  fan_status : Bool
  enable : Bool

/-- AHUProfile.create_objects (lines 241-314): initial point values. -/
def AHUProfile.create_objects (s : BuildingState) : AHUObjects where
  supply_air_temp := s.ahu_supply_air_temp
  return_air_temp := s.ahu_return_air_temp
  mixed_air_temp := s.ahu_mixed_air_temp
  supply_air_flow := s.ahu_supply_air_flow
  supply_air_setpoint := s.ahu_supply_air_setpoint
  fan_speed := s.ahu_fan_speed
  cooling_valve := s.ahu_cooling_valve
  fan_status := true
  enable := true

/-- AHUProfile.update_objects (lines 316-325): sensors are copied state to
point; the commandable setpoint is copied point to state; fan speed and
cooling valve are overwritten from state. -/
def AHUProfile.update_objects (s : BuildingState) (o : AHUObjects) :
    BuildingState × AHUObjects :=
  ({ s with ahu_supply_air_setpoint := o.supply_air_setpoint },
   { o with
     supply_air_temp := s.ahu_supply_air_temp
     return_air_temp := s.ahu_return_air_temp
     mixed_air_temp := s.ahu_mixed_air_temp
     supply_air_flow := s.ahu_supply_air_flow
     fan_speed := s.ahu_fan_speed
     cooling_valve := s.ahu_cooling_valve })

/-- VAVProfile object list (lines 340-391), in order: zone temp, zone
setpoint (commandable), damper position, airflow, reheat valve, occupancy. -/
structure VAVObjects where
  zone_temp : ℚ
  zone_setpoint : ℚ
  damper_position : ℚ
  airflow : ℚ
  reheat_valve : ℚ
  occupancy : Bool

/-- VAVProfile.create_objects for an in-range zone index (lines 340-391). -/
def VAVProfile.create_objects (i : Fin 6) (s : BuildingState) : VAVObjects where
  zone_temp := s.vav_zone_temps i
  zone_setpoint := s.vav_zone_setpoints i
  damper_position := s.vav_damper_positions i
  airflow := s.vav_airflows i
  reheat_valve := s.vav_reheat_valves i
  occupancy := s.is_occupied

/-- VAVProfile.update_objects (lines 393-401): sensors copied state to point;
the commandable zone setpoint copied point to state. -/
def VAVProfile.update_objects (i : Fin 6) (s : BuildingState) (o : VAVObjects) :
    BuildingState × VAVObjects :=
  ({ s with vav_zone_setpoints := Function.update s.vav_zone_setpoints i o.zone_setpoint },
   { o with
     zone_temp := s.vav_zone_temps i
     damper_position := s.vav_damper_positions i
     airflow := s.vav_airflows i
     reheat_valve := s.vav_reheat_valves i
     occupancy := s.is_occupied })

/-- ChillerProfile object list (lines 411-444): chilled water supply temp,
chilled water return temp, status, enable. -/
structure ChillerObjects where
  chw_supply_temp : ℚ
  chw_return_temp : ℚ
  status : Bool
  enable : Bool

/-- ChillerProfile.create_objects (lines 411-444). -/
def ChillerProfile.create_objects (s : BuildingState) : ChillerObjects where
  chw_supply_temp := s.chilled_water_supply_temp
  chw_return_temp := s.chilled_water_return_temp
  status := true
  enable := true

/-- ChillerProfile.update_objects (lines 446-449): copies the two sensor
temperatures; never writes into BuildingState. -/
def ChillerProfile.update_objects (s : BuildingState) (o : ChillerObjects) :
    BuildingState × ChillerObjects :=
  (s, { o with
        chw_supply_temp := s.chilled_water_supply_temp
        chw_return_temp := s.chilled_water_return_temp })

/-- MeterProfile object list (lines 459-486): total power, total energy,
voltage. -/
structure MeterObjects where
  total_power : ℚ
  total_energy : ℚ
  voltage : ℚ

/-- MeterProfile.create_objects (lines 459-486). -/
def MeterProfile.create_objects (s : BuildingState) : MeterObjects where
  total_power := s.total_power
  total_energy := s.total_energy
  voltage := 480

/-- MeterProfile.update_objects (lines 488-492): copies power and energy and
refreshes the voltage with `480 + uniform(-5, 5)` (the noise is the explicit
input `nz`); never writes into BuildingState. -/
def MeterProfile.update_objects (nz : ℚ) (s : BuildingState) (o : MeterObjects) :
    BuildingState × MeterObjects :=
  (s, { o with
        total_power := s.total_power
        total_energy := s.total_energy
        voltage := 480 + nz })

/-! ## Startup dispatch (BuildingSimulator.__init__, lines 501-530)

The selector handling is embedded exactly: an `ahu` / `chiller` / `meter`
match, a `startswith("vav")` test followed by Python `int()` parsing of the
rest of the string, Python floor division and modulo for the floor and zone
name, and Python list indexing (negative indices address from the end) when
create_objects reads the zone arrays.  `pyParseInt` models the core of
Python `int()`: an optional sign followed by at least one digit. -/

/-- Digit-string value, or none if empty or containing a non-digit. -/
def pyDigits : List Char → Option Nat
  | [] => none
  | cs =>
    if cs.all Char.isDigit then
      some (cs.foldl (fun n c => 10 * n + (c.toNat - 48)) 0)
    else none

/-- Python `int(str)` on a sign-and-digits string. -/
def pyParseInt (cs : List Char) : Option Int :=
  match cs with
  | '-' :: rest => (pyDigits rest).map (fun n => -(n : Int))
  | '+' :: rest => (pyDigits rest).map (fun n => (n : Int))
  | _ => (pyDigits cs).map (fun n => (n : Int))

/-- Python list indexing: nonnegative indices from the front, negative
indices from the end; out of range is an IndexError (none). -/
def pyListGet (xs : List ℚ) (i : Int) : Option ℚ :=
  if 0 ≤ i then xs.get? i.toNat
  else
    let j := (xs.length : Int) + i
    if 0 ≤ j then xs.get? j.toNat else none

/-- VAVProfile.create_objects with a raw Python zone index (lines 340-391):
each point reads its zone array at `zone_index` with Python list semantics;
a failed read is the IndexError the source would raise. -/
def VAVProfile.create_objects_py (s : BuildingState) (z : Int) : Option VAVObjects := do
  let t ← pyListGet (List.ofFn s.vav_zone_temps) z
  let sp ← pyListGet (List.ofFn s.vav_zone_setpoints) z
  let d ← pyListGet (List.ofFn s.vav_damper_positions) z
  let a ← pyListGet (List.ofFn s.vav_airflows) z
  let r ← pyListGet (List.ofFn s.vav_reheat_valves) z
  pure { zone_temp := t, zone_setpoint := sp, damper_position := d,
         airflow := a, reheat_valve := r, occupancy := s.is_occupied }

/-- The profile variant selected by BuildingSimulator.__init__; for a VAV it
records the parsed zone index, the computed floor `zone_index // 2 + 1`
(Python floor division) and the zone name from `zone_index % 2`. -/
inductive ProfileKind where
  | ahu : ProfileKind
  | vav (zone_index : Int) (floor : Int) (zone_name : String) : ProfileKind
  | chiller : ProfileKind
  | meter : ProfileKind
deriving DecidableEq

/-- Outcome of BuildingSimulator.__init__ for a given selector string:
a constructed profile with its points created, a ValueError (either the final
`Unknown equipment type` branch or an unparsable vav index), or an IndexError
raised inside create_objects. -/
inductive InitOutcome where
  | ok (p : ProfileKind) : InitOutcome
  | valueError : InitOutcome
  | indexError : InitOutcome
deriving DecidableEq

/-- BuildingSimulator.__init__ dispatch (lines 510-525): the selector tests in
source order, Python int parsing of the characters after "vav", and the
create_objects call that follows profile construction. -/
def buildingSimulatorInit (s : BuildingState) (equipment_type : String) : InitOutcome :=
  if equipment_type = "ahu" then .ok .ahu
  else if "vav".data.isPrefixOf equipment_type.data then
    match pyParseInt (equipment_type.data.drop 3) with
    | none => .valueError
    | some z =>
      let floor := z.fdiv 2 + 1
      let zone_name := if z.emod 2 = 0 then "North" else "South"
      match VAVProfile.create_objects_py s z with
      | none => .indexError
      | some _ => .ok (.vav z floor zone_name)
  else if equipment_type = "chiller" then .ok .chiller
  else if equipment_type = "meter" then .ok .meter
  else .valueError

/-! ## Update loop (BuildingSimulator.update_loop, lines 533-573)

The loop body (physics update then point sync) may raise; the embedding
records a tick outcome carrying the state as mutated up to the point of the
exception.  The `try`/`except` wrapper keeps that state and continues. -/

/-- Result of one tick body: normal completion, or an exception raised after
some prefix of the mutations already happened (the carried state). -/
inductive TickOutcome (σ : Type) where
  | ok (s : σ) : TickOutcome σ
  | error (partial_state : σ) : TickOutcome σ

/-- The state as left behind by a tick body, exception or not. -/
def TickOutcome.state {σ : Type} : TickOutcome σ → σ
  | .ok s => s
  | .error s => s

/-- One iteration of the try block (lines 536-541): run the physics update;
if it raises, the sync never runs; otherwise run the point sync. -/
def tick_body {σ : Type} (upd sync : σ → TickOutcome σ) (s : σ) : TickOutcome σ :=
  match upd s with
  | .error sp => .error sp
  | .ok s1 =>
    match sync s1 with
    | .error sp => .error sp
    | .ok s2 => .ok s2

/-- n iterations of the while-True loop (lines 535-573): every iteration
wraps the body in try/except, keeps whatever state the body left behind, and
continues with the next tick. -/
def update_loop {σ : Type} (upd sync : σ → TickOutcome σ) : ℕ → σ → σ
  | 0, s => s
  | n + 1, s => update_loop upd sync n (TickOutcome.state (tick_body upd sync s))

/-! ## Concrete environments used by witnesses -/

/-- Occupied tick with all noise zero and `sin` value 0 (6 AM or 6 PM). -/
def envOcc : Env :=
  { occupied := true, sinVal := 0, outdoorNoise := 0, fanNoise := 0,
    zoneLoadNoise := fun _ => 0, chwSupplyNoise := 0, chwReturnNoise := 0,
    miscNoise := 0 }

/-- Unoccupied tick with all noise zero and `sin` value 0. -/
def envUnocc : Env :=
  { occupied := false, sinVal := 0, outdoorNoise := 0, fanNoise := 0,
    zoneLoadNoise := fun _ => 0, chwSupplyNoise := 0, chwReturnNoise := 0,
    miscNoise := 0 }

/-! ## Generic fold and frame lemmas -/

/-- A property preserved by every step of a left fold is preserved by the
whole fold. -/
theorem foldl_preserve {σ α : Type} (P : σ → Prop) (f : σ → α → σ)
    (h : ∀ s a, P s → P (f s a)) :
    ∀ (l : List α) (s : σ), P s → P (l.foldl f s)
  | [], _, hs => hs
  | a :: l, s, hs => foldl_preserve P f h l (f s a) (h s a hs)

/-- Agreement of two states on everything one iteration of the zone loop for
zone `i` reads or writes: the zone-`i` slots of the four zone arrays plus the
setpoint, and the shared inputs supply air temperature and occupancy. -/
def AgreeAt (i : Fin 6) (s t : BuildingState) : Prop :=
  s.vav_zone_temps i = t.vav_zone_temps i ∧
  s.vav_zone_setpoints i = t.vav_zone_setpoints i ∧
  s.vav_damper_positions i = t.vav_damper_positions i ∧
  s.vav_reheat_valves i = t.vav_reheat_valves i ∧
  s.ahu_supply_air_temp = t.ahu_supply_air_temp ∧
  s.is_occupied = t.is_occupied

theorem agreeAt_refl (i : Fin 6) (s : BuildingState) : AgreeAt i s s :=
  ⟨rfl, rfl, rfl, rfl, rfl, rfl⟩

theorem agreeAt_trans {i : Fin 6} {s t u : BuildingState}
    (h1 : AgreeAt i s t) (h2 : AgreeAt i t u) : AgreeAt i s u :=
  ⟨h1.1.trans h2.1, h1.2.1.trans h2.2.1, h1.2.2.1.trans h2.2.2.1,
   h1.2.2.2.1.trans h2.2.2.2.1, h1.2.2.2.2.1.trans h2.2.2.2.2.1,
   h1.2.2.2.2.2.trans h2.2.2.2.2.2⟩

/-- An iteration of the zone loop for another zone leaves the zone-`i` view
unchanged. -/
theorem update_vav_zone_agree (e : Env) {i j : Fin 6} (h : j ≠ i) (s : BuildingState) :
    AgreeAt i (update_vav_zone e j s) s := by
  refine ⟨?_, rfl, ?_, ?_, rfl, rfl⟩ <;>
    exact Function.update_noteq (Ne.symm h) _ _

/-- Folding the zone loop over a list avoiding `i` leaves the zone-`i` view
unchanged. -/
theorem foldl_agree (e : Env) (i : Fin 6) :
    ∀ (l : List (Fin 6)), i ∉ l → ∀ s : BuildingState,
      AgreeAt i (l.foldl (fun t j => update_vav_zone e j t) s) s
  | [], _, s => agreeAt_refl i s
  | j :: l, h, s => by
    have hj : j ≠ i := by rintro rfl; exact h (List.mem_cons_self j l)
    have h2 : i ∉ l := fun hm => h (List.mem_cons_of_mem _ hm)
    exact agreeAt_trans (foldl_agree e i l h2 (update_vav_zone e j s))
      (update_vav_zone_agree e hj s)

/-- Equality of two states on the fields that the zone loop never writes
(among those later steps read). -/
def SharedEq (s t : BuildingState) : Prop :=
  s.is_occupied = t.is_occupied ∧
  s.ahu_supply_air_temp = t.ahu_supply_air_temp ∧
  s.ahu_mixed_air_temp = t.ahu_mixed_air_temp ∧
  s.ahu_fan_speed = t.ahu_fan_speed ∧
  s.ahu_cooling_valve = t.ahu_cooling_valve ∧
  s.vav_zone_setpoints = t.vav_zone_setpoints ∧
  s.total_energy = t.total_energy

theorem sharedEq_refl (s : BuildingState) : SharedEq s s :=
  ⟨rfl, rfl, rfl, rfl, rfl, rfl, rfl⟩

theorem sharedEq_trans {s t u : BuildingState}
    (h1 : SharedEq s t) (h2 : SharedEq t u) : SharedEq s u :=
  ⟨h1.1.trans h2.1, h1.2.1.trans h2.2.1, h1.2.2.1.trans h2.2.2.1,
   h1.2.2.2.1.trans h2.2.2.2.1, h1.2.2.2.2.1.trans h2.2.2.2.2.1,
   h1.2.2.2.2.2.1.trans h2.2.2.2.2.2.1, h1.2.2.2.2.2.2.trans h2.2.2.2.2.2.2⟩

theorem update_vav_zone_shared (e : Env) (j : Fin 6) (s : BuildingState) :
    SharedEq (update_vav_zone e j s) s :=
  ⟨rfl, rfl, rfl, rfl, rfl, rfl, rfl⟩

theorem update_vavs_shared (s : BuildingState) (e : Env) :
    SharedEq (s.update_vavs e) s :=
  foldl_preserve (fun t => SharedEq t s) (fun t j => update_vav_zone e j t)
    (fun t j ht => sharedEq_trans (update_vav_zone_shared e j t) ht)
    (List.finRange 6) s (sharedEq_refl s)

theorem update_chiller_occupied (s : BuildingState) (e : Env) :
    (s.update_chiller e).is_occupied = s.is_occupied := by
  simp only [BuildingState.update_chiller]; split <;> rfl

theorem update_chiller_supply (s : BuildingState) (e : Env) :
    (s.update_chiller e).ahu_supply_air_temp = s.ahu_supply_air_temp := by
  simp only [BuildingState.update_chiller]; split <;> rfl

theorem update_chiller_mixed (s : BuildingState) (e : Env) :
    (s.update_chiller e).ahu_mixed_air_temp = s.ahu_mixed_air_temp := by
  simp only [BuildingState.update_chiller]; split <;> rfl

theorem update_chiller_fan (s : BuildingState) (e : Env) :
    (s.update_chiller e).ahu_fan_speed = s.ahu_fan_speed := by
  simp only [BuildingState.update_chiller]; split <;> rfl

theorem update_chiller_valve (s : BuildingState) (e : Env) :
    (s.update_chiller e).ahu_cooling_valve = s.ahu_cooling_valve := by
  simp only [BuildingState.update_chiller]; split <;> rfl

theorem update_chiller_setpoints (s : BuildingState) (e : Env) :
    (s.update_chiller e).vav_zone_setpoints = s.vav_zone_setpoints := by
  simp only [BuildingState.update_chiller]; split <;> rfl

theorem update_chiller_energy (s : BuildingState) (e : Env) :
    (s.update_chiller e).total_energy = s.total_energy := by
  simp only [BuildingState.update_chiller]; split <;> rfl

theorem update_chiller_temps (s : BuildingState) (e : Env) :
    (s.update_chiller e).vav_zone_temps = s.vav_zone_temps := by
  simp only [BuildingState.update_chiller]; split <;> rfl

theorem update_chiller_reheat (s : BuildingState) (e : Env) :
    (s.update_chiller e).vav_reheat_valves = s.vav_reheat_valves := by
  simp only [BuildingState.update_chiller]; split <;> rfl

theorem update_chiller_damper (s : BuildingState) (e : Env) :
    (s.update_chiller e).vav_damper_positions = s.vav_damper_positions := by
  simp only [BuildingState.update_chiller]; split <;> rfl

/-- The zone formulas only read the zone-`i` view. -/
theorem zoneNew_congr (e : Env) (i : Fin 6) {s t : BuildingState} (h : AgreeAt i s t) :
    zoneNewDamper e i s = zoneNewDamper e i t ∧
    zoneNewTemp e i s = zoneNewTemp e i t ∧
    zoneNewReheat e i s = zoneNewReheat e i t := by
  obtain ⟨h1, h2, h3, h4, h5, h6⟩ := h
  have hd : zoneNewDamper e i s = zoneNewDamper e i t := by
    simp only [zoneNewDamper, h1, h2, h3]
  have ht : zoneNewTemp e i s = zoneNewTemp e i t := by
    simp only [zoneNewTemp, zone_load_calc, h1, h5, h6, hd]
  have hr : zoneNewReheat e i s = zoneNewReheat e i t := by
    simp only [zoneNewReheat, h2, h4, ht]
  exact ⟨hd, ht, hr⟩

/-- Decomposed form of the zone loop at a distinguished index. -/
theorem update_vavs_at_aux (s : BuildingState) (e : Env) (i : Fin 6)
    (l1 l2 : List (Fin 6)) (h1 : i ∉ l1) (h2 : i ∉ l2)
    (hsplit : List.finRange 6 = l1 ++ i :: l2) :
    (s.update_vavs e).vav_zone_temps i = zoneNewTemp e i s ∧
    (s.update_vavs e).vav_reheat_valves i = zoneNewReheat e i s := by
  unfold BuildingState.update_vavs
  rw [hsplit, List.foldl_append, List.foldl_cons]
  have hag1 : AgreeAt i (l1.foldl (fun t j => update_vav_zone e j t) s) s :=
    foldl_agree e i l1 h1 s
  have hag2 := foldl_agree e i l2 h2
    (update_vav_zone e i (l1.foldl (fun t j => update_vav_zone e j t) s))
  obtain ⟨c1, c2, c3⟩ := zoneNew_congr e i hag1
  constructor
  · rw [hag2.1]
    show Function.update
      (l1.foldl (fun t j => update_vav_zone e j t) s).vav_zone_temps i
      (zoneNewTemp e i (l1.foldl (fun t j => update_vav_zone e j t) s)) i = _
    rw [Function.update_same, c2]
  · rw [hag2.2.2.2.1]
    show Function.update
      (l1.foldl (fun t j => update_vav_zone e j t) s).vav_reheat_valves i
      (zoneNewReheat e i (l1.foldl (fun t j => update_vav_zone e j t) s)) i = _
    rw [Function.update_same, c3]

/-- The zone loop leaves zone `i` with exactly the formula values computed
from the pre-loop state. -/
theorem update_vavs_at (s : BuildingState) (e : Env) (i : Fin 6) :
    (s.update_vavs e).vav_zone_temps i = zoneNewTemp e i s ∧
    (s.update_vavs e).vav_reheat_valves i = zoneNewReheat e i s := by
  fin_cases i
  · exact update_vavs_at_aux s e 0 [] [1, 2, 3, 4, 5] (by decide) (by decide) (by decide)
  · exact update_vavs_at_aux s e 1 [0] [2, 3, 4, 5] (by decide) (by decide) (by decide)
  · exact update_vavs_at_aux s e 2 [0, 1] [3, 4, 5] (by decide) (by decide) (by decide)
  · exact update_vavs_at_aux s e 3 [0, 1, 2] [4, 5] (by decide) (by decide) (by decide)
  · exact update_vavs_at_aux s e 4 [0, 1, 2, 3] [5] (by decide) (by decide) (by decide)
  · exact update_vavs_at_aux s e 5 [0, 1, 2, 3, 4] [] (by decide) (by decide) (by decide)

/-! ## Bounds invariants -/

/-- Both clamp bounds at once. -/
theorem clamp_bounds {lo hi x : ℚ} (h : lo ≤ hi) :
    lo ≤ max lo (min hi x) ∧ max lo (min hi x) ≤ hi :=
  ⟨le_max_left _ _, max_le h (min_le_left _ _)⟩

/-- Damper positions in [20, 100] and reheat valves in [0, 100]. -/
def ZoneBounds (s : BuildingState) : Prop :=
  (∀ i : Fin 6, 20 ≤ s.vav_damper_positions i ∧ s.vav_damper_positions i ≤ 100) ∧
  (∀ i : Fin 6, 0 ≤ s.vav_reheat_valves i ∧ s.vav_reheat_valves i ≤ 100)

/-- One zone-loop iteration keeps the zone bounds: the damper is clamped to
[20, 100] outright, and the reheat ramp keeps [0, 100] whenever the previous
value was in [0, 100]. -/
theorem update_vav_zone_bounds (e : Env) (j : Fin 6) (s : BuildingState)
    (h : ZoneBounds s) : ZoneBounds (update_vav_zone e j s) := by
  obtain ⟨hd, hr⟩ := h
  constructor
  · intro i
    show 20 ≤ Function.update s.vav_damper_positions j (zoneNewDamper e j s) i ∧
      Function.update s.vav_damper_positions j (zoneNewDamper e j s) i ≤ 100
    rcases eq_or_ne i j with rfl | hne
    · rw [Function.update_same]; exact clamp_bounds (by norm_num)
    · rw [Function.update_noteq hne]; exact hd i
  · intro i
    show 0 ≤ Function.update s.vav_reheat_valves j (zoneNewReheat e j s) i ∧
      Function.update s.vav_reheat_valves j (zoneNewReheat e j s) i ≤ 100
    rcases eq_or_ne i j with rfl | hne
    · rw [Function.update_same]
      obtain ⟨hr0, hr1⟩ := hr i
      unfold zoneNewReheat
      split
      · exact ⟨le_min (by norm_num) (by linarith), min_le_left _ _⟩
      · exact ⟨le_max_left _ _, max_le (by norm_num) (by linarith)⟩
    · rw [Function.update_noteq hne]; exact hr i

theorem update_vavs_bounds (s : BuildingState) (e : Env) (h : ZoneBounds s) :
    ZoneBounds (s.update_vavs e) :=
  foldl_preserve ZoneBounds (fun t j => update_vav_zone e j t)
    (fun t j ht => update_vav_zone_bounds e j t ht) (List.finRange 6) s h

/-- The spec invariant: zone bounds plus cooling valve in [0, 100]. -/
def StateInv (s : BuildingState) : Prop :=
  ZoneBounds s ∧ 0 ≤ s.ahu_cooling_valve ∧ s.ahu_cooling_valve ≤ 100

/-- One tick keeps the invariant, for every environment. -/
theorem inv_update (s : BuildingState) (e : Env) (h : StateInv s) : StateInv (s.update e) := by
  obtain ⟨hz, _, _⟩ := h
  set s3 := ((s.update_occupancy e).update_outdoor_temp e).update_ahu e with hs3
  set s4 := s3.update_vavs e with hs4
  have hz3 : ZoneBounds s3 := hz
  have hz4 : ZoneBounds s4 := update_vavs_bounds s3 e hz3
  have hsh : SharedEq s4 s3 := update_vavs_shared s3 e
  have hv4 : 0 ≤ s4.ahu_cooling_valve ∧ s4.ahu_cooling_valve ≤ 100 := by
    rw [hsh.2.2.2.2.1]
    exact clamp_bounds (by norm_num)
  refine ⟨⟨fun i => ?_, fun i => ?_⟩, ?_, ?_⟩
  · show 20 ≤ (s4.update_chiller e).vav_damper_positions i ∧
      (s4.update_chiller e).vav_damper_positions i ≤ 100
    rw [update_chiller_damper]; exact hz4.1 i
  · show 0 ≤ (s4.update_chiller e).vav_reheat_valves i ∧
      (s4.update_chiller e).vav_reheat_valves i ≤ 100
    rw [update_chiller_reheat]; exact hz4.2 i
  · show 0 ≤ (s4.update_chiller e).ahu_cooling_valve
    rw [update_chiller_valve]; exact hv4.1
  · show (s4.update_chiller e).ahu_cooling_valve ≤ 100
    rw [update_chiller_valve]; exact hv4.2

/-- Every reachable state satisfies the invariant. -/
theorem inv_reachable {s : BuildingState} (h : Reachable s) : StateInv s := by
  induction h with
  | init => exact ⟨by unfold ZoneBounds; decide, by decide, by decide⟩
  | step s e _ _ ih => exact inv_update s e ih

/-! ## Energy monotonicity -/

/-- One tick with in-range random draws from a state with in-range reheat
valves never decreases cumulative energy. -/
theorem energy_step (s : BuildingState) (e : Env) (hz : ZoneBounds s)
    (hv : e.Valid) : s.total_energy ≤ (s.update e).total_energy := by
  set s3 := ((s.update_occupancy e).update_outdoor_temp e).update_ahu e with hs3
  set s4 := s3.update_vavs e with hs4
  set s5 := s4.update_chiller e with hs5
  have hz4 : ZoneBounds s4 := update_vavs_bounds s3 e hz
  have hsh : SharedEq s4 s3 := update_vavs_shared s3 e
  have hfan4 : s4.ahu_fan_speed = (if e.occupied then (75 : ℚ) else 40) + e.fanNoise :=
    hsh.2.2.2.1
  have hocc4 : s4.is_occupied = e.occupied := hsh.1
  have hval4 : 0 ≤ s4.ahu_cooling_valve ∧ s4.ahu_cooling_valve ≤ 100 := by
    rw [hsh.2.2.2.2.1]; exact clamp_bounds (by norm_num)
  have hen4 : s4.total_energy = s.total_energy := hsh.2.2.2.2.2.2
  have h5fan : s5.ahu_fan_speed = s4.ahu_fan_speed := update_chiller_fan s4 e
  have h5val : s5.ahu_cooling_valve = s4.ahu_cooling_valve := update_chiller_valve s4 e
  have h5r : s5.vav_reheat_valves = s4.vav_reheat_valves := update_chiller_reheat s4 e
  have h5occ : s5.is_occupied = s4.is_occupied := update_chiller_occupied s4 e
  have h5en : s5.total_energy = s4.total_energy := update_chiller_energy s4 e
  have hfinal : (s.update e).total_energy =
      s5.total_energy +
        (ahu_fan_power s5.ahu_fan_speed + s5.ahu_cooling_valve / 100 * 80 +
          sumZones s5.vav_reheat_valves / 100 * 2 +
          ((if s5.is_occupied then (50 : ℚ) else 10) + e.miscNoise)) *
          (INTERVAL / 3600) := rfl
  have hfan_nonneg : 0 ≤ s5.ahu_fan_speed := by
    rw [h5fan, hfan4]
    obtain ⟨-, -, ⟨hfn1, -⟩, -⟩ := hv
    cases hb : e.occupied <;> simp <;> linarith
  have hfp : 0 ≤ ahu_fan_power s5.ahu_fan_speed := by
    unfold ahu_fan_power
    exact mul_nonneg (pow_nonneg (div_nonneg hfan_nonneg (by norm_num)) 3) (by norm_num)
  have hcp : 0 ≤ s5.ahu_cooling_valve / 100 * 80 := by
    rw [h5val]
    exact mul_nonneg (div_nonneg hval4.1 (by norm_num)) (by norm_num)
  have hrp : 0 ≤ sumZones s5.vav_reheat_valves / 100 * 2 := by
    rw [h5r]
    have hs0 : 0 ≤ sumZones s4.vav_reheat_valves := by
      unfold sumZones
      linarith [(hz4.2 0).1, (hz4.2 1).1, (hz4.2 2).1, (hz4.2 3).1,
        (hz4.2 4).1, (hz4.2 5).1]
    exact mul_nonneg (div_nonneg hs0 (by norm_num)) (by norm_num)
  have hmp : 0 ≤ (if s5.is_occupied then (50 : ℚ) else 10) + e.miscNoise := by
    rw [h5occ, hocc4]
    have hm := hv.2.2.2.2.2.2
    cases hb : e.occupied <;> rw [hb] at hm <;> simp at hm ⊢ <;> linarith [hm.1]
  rw [hfinal, h5en, hen4]
  have htot : 0 ≤ ahu_fan_power s5.ahu_fan_speed + s5.ahu_cooling_valve / 100 * 80 +
      sumZones s5.vav_reheat_valves / 100 * 2 +
      ((if s5.is_occupied then (50 : ℚ) else 10) + e.miscNoise) := by linarith
  have hint : (0 : ℚ) ≤ INTERVAL / 3600 := by norm_num [INTERVAL]
  linarith [mul_nonneg htot hint]

/-! ## Reheat valve behavior -/

/-- One tick relates the new reheat valve of zone `i` to the freshly
integrated zone temperature, the (unchanged) setpoint, and the previous
reheat valve, exactly as lines 182-186 do. -/
theorem update_reheat_rule (s : BuildingState) (e : Env) (i : Fin 6) :
    (s.update e).vav_zone_temps i =
      zoneNewTemp e i (((s.update_occupancy e).update_outdoor_temp e).update_ahu e) ∧
    (s.update e).vav_zone_setpoints i = s.vav_zone_setpoints i ∧
    (s.update e).vav_reheat_valves i =
      (if (s.update e).vav_zone_temps i < (s.update e).vav_zone_setpoints i - 1
       then min 100 (s.vav_reheat_valves i + 5)
       else max 0 (s.vav_reheat_valves i - 5)) := by
  set s3 := ((s.update_occupancy e).update_outdoor_temp e).update_ahu e with hs3
  set s4 := s3.update_vavs e with hs4
  have hva := update_vavs_at s3 e i
  have hsh := update_vavs_shared s3 e
  have ht : (s.update e).vav_zone_temps i = zoneNewTemp e i s3 := by
    show (s4.update_chiller e).vav_zone_temps i = _
    rw [update_chiller_temps]; exact hva.1
  have hsp : (s.update e).vav_zone_setpoints i = s.vav_zone_setpoints i := by
    show (s4.update_chiller e).vav_zone_setpoints i = _
    rw [update_chiller_setpoints]
    exact congrFun hsh.2.2.2.2.2.1 i
  have hrv : (s.update e).vav_reheat_valves i = zoneNewReheat e i s3 := by
    show (s4.update_chiller e).vav_reheat_valves i = _
    rw [update_chiller_reheat]; exact hva.2
  refine ⟨ht, hsp, ?_⟩
  rw [hrv, ht, hsp]
  rfl

/-- Along a run, zone `i` never drops more than 1 degree below setpoint:
after every tick of the run, the integrated zone temperature is at or above
setpoint minus 1 (so the reheat ramp-up branch is never taken). -/
def AtOrAboveBand (i : Fin 6) : BuildingState → List Env → Prop
  | _, [] => True
  | s, e :: es =>
    ¬ ((s.update e).vav_zone_temps i < (s.update e).vav_zone_setpoints i - 1) ∧
    AtOrAboveBand i (s.update e) es

/-- Collapsing nested clamps of the ramp-down recursion. -/
theorem max_zero_sub_collapse (a b : ℚ) (hb : 0 ≤ b) :
    max 0 (max 0 a - b) = max 0 (a - b) := by
  rcases le_total a 0 with hc | hc
  · rw [max_eq_left hc, max_eq_left (by linarith : a - b ≤ 0), zero_sub,
      max_eq_left (by linarith : -b ≤ 0)]
  · rw [max_eq_right hc]

/-- While the zone stays at or above setpoint minus 1, the reheat valve ramps
down by 5 per tick, floored at 0. -/
theorem reheat_rampdown (i : Fin 6) :
    ∀ (envs : List Env) (s : BuildingState), 0 ≤ s.vav_reheat_valves i →
      AtOrAboveBand i s envs →
      (updateSeq s envs).vav_reheat_valves i =
        max 0 (s.vav_reheat_valves i - 5 * (envs.length : ℚ))
  | [], s, h0, _ => by
    show s.vav_reheat_valves i = max 0 (s.vav_reheat_valves i - 5 * ((0 : ℕ) : ℚ))
    rw [Nat.cast_zero, mul_zero, sub_zero, max_eq_right h0]
  | e :: es, s, h0, h => by
    obtain ⟨h1, h2⟩ := h
    have hstep := (update_reheat_rule s e i).2.2
    have hr1 : (s.update e).vav_reheat_valves i =
        max 0 (s.vav_reheat_valves i - 5) := by rw [hstep, if_neg h1]
    have h0' : 0 ≤ (s.update e).vav_reheat_valves i := by
      rw [hr1]; exact le_max_left _ _
    show (updateSeq (s.update e) es).vav_reheat_valves i = _
    rw [reheat_rampdown i es (s.update e) h0' h2, hr1,
      max_zero_sub_collapse _ _ (by positivity), List.length_cons]
    congr 1
    push_cast
    ring

/-! ## Mixed-air extraction helpers -/

/-- The mixed air temperature of a full tick is the one computed by
update_ahu (the later steps never touch it). -/
theorem update_mixed (s : BuildingState) (e : Env) :
    (s.update e).ahu_mixed_air_temp =
      (((s.update_occupancy e).update_outdoor_temp e).update_ahu e).ahu_mixed_air_temp := by
  set s3 := ((s.update_occupancy e).update_outdoor_temp e).update_ahu e with hs3
  set s4 := s3.update_vavs e with hs4
  show (s4.update_chiller e).ahu_mixed_air_temp = s3.ahu_mixed_air_temp
  rw [update_chiller_mixed]
  exact (update_vavs_shared s3 e).2.2.1

/-- update_ahu computes mixed air as the outdoor-damper blend of the previous
return air and the current outdoor temperature (lines 120-125). -/
theorem update_ahu_mixed (s : BuildingState) (e : Env) :
    (s.update_ahu e).ahu_mixed_air_temp =
      s.ahu_return_air_temp * (100 - (if s.is_occupied then (20 : ℚ) else 10)) / 100 +
        s.outdoor_temp * (if s.is_occupied then (20 : ℚ) else 10) / 100 := rfl

/-! ## Claims -/

/-- C1: for every reachable BuildingState (default constructor followed by
any number of update ticks), every damper position stays in [20, 100], the
AHU cooling valve stays in [0, 100], and every reheat valve stays in
[0, 100]. -/
theorem C1_actuator_bounds (s : BuildingState) (h : Reachable s) :
    (∀ i : Fin 6, 20 ≤ s.vav_damper_positions i ∧ s.vav_damper_positions i ≤ 100) ∧
    (0 ≤ s.ahu_cooling_valve ∧ s.ahu_cooling_valve ≤ 100) ∧
    (∀ i : Fin 6, 0 ≤ s.vav_reheat_valves i ∧ s.vav_reheat_valves i ≤ 100) := by
  obtain ⟨⟨hd, hr⟩, hv0, hv1⟩ := inv_reachable h
  exact ⟨hd, ⟨hv0, hv1⟩, hr⟩

/-- Witness for C1 at the initial state. -/
theorem C1_actuator_bounds_witness :
    (∀ i : Fin 6, 20 ≤ BuildingState.init.vav_damper_positions i ∧
        BuildingState.init.vav_damper_positions i ≤ 100) ∧
    (0 ≤ BuildingState.init.ahu_cooling_valve ∧
        BuildingState.init.ahu_cooling_valve ≤ 100) ∧
    (∀ i : Fin 6, 0 ≤ BuildingState.init.vav_reheat_valves i ∧
        BuildingState.init.vav_reheat_valves i ≤ 100) :=
  C1_actuator_bounds BuildingState.init Reachable.init

/-- C2: cumulative energy is monotonically non-decreasing: from any reachable
state, one more update tick leaves total_energy greater than or equal to its
previous value. -/
theorem C2_energy_monotone (s : BuildingState) (e : Env) (h : Reachable s)
    (hv : e.Valid) : s.total_energy ≤ (s.update e).total_energy :=
  energy_step s e (inv_reachable h).1 hv

/-- Witness for C2 at the initial state with a concrete noise-free tick. -/
theorem C2_energy_monotone_witness :
    BuildingState.init.total_energy ≤
      (BuildingState.init.update envOcc).total_energy :=
  C2_energy_monotone BuildingState.init envOcc Reachable.init
    (by unfold Env.Valid envOcc; norm_num)

/-- C3: round-trip for commandable setpoints: any value written into the
zone-setpoint point or the AHU supply-air-setpoint point is read back exactly
into the bound BuildingState field by the next update_objects sync. -/
theorem C3_setpoint_roundtrip (s : BuildingState) (i : Fin 6) (ov : VAVObjects)
    (oa : AHUObjects) (v w : ℚ) :
    ((VAVProfile.update_objects i s { ov with zone_setpoint := v }).1).vav_zone_setpoints i = v ∧
    ((AHUProfile.update_objects s { oa with supply_air_setpoint := w }).1).ahu_supply_air_setpoint = w := by
  refine ⟨?_, rfl⟩
  show Function.update s.vav_zone_setpoints i v i = v
  exact Function.update_same i v s.vav_zone_setpoints

/-- C7: per tick, a zone more than 1 degree below setpoint (measured on the
freshly integrated temperature) has its reheat valve raised by exactly 5
capped at 100, otherwise lowered by exactly 5 floored at 0; consequently,
along any run in which the zone stays at or above setpoint minus 1, the
valve ramps down by 5 per tick to 0 and stays there. -/
theorem C7_reheat_rule (s : BuildingState) (e : Env) (i : Fin 6) :
    (((s.update e).vav_zone_temps i < (s.update e).vav_zone_setpoints i - 1 →
        (s.update e).vav_reheat_valves i = min 100 (s.vav_reheat_valves i + 5)) ∧
      (¬ ((s.update e).vav_zone_temps i < (s.update e).vav_zone_setpoints i - 1) →
        (s.update e).vav_reheat_valves i = max 0 (s.vav_reheat_valves i - 5))) ∧
    (∀ envs : List Env, 0 ≤ s.vav_reheat_valves i → AtOrAboveBand i s envs →
      (updateSeq s envs).vav_reheat_valves i =
        max 0 (s.vav_reheat_valves i - 5 * (envs.length : ℚ))) := by
  refine ⟨⟨fun hc => ?_, fun hc => ?_⟩,
    fun envs h0 hband => reheat_rampdown i envs s h0 hband⟩
  · rw [(update_reheat_rule s e i).2.2, if_pos hc]
  · rw [(update_reheat_rule s e i).2.2, if_neg hc]

/-- Witness for C7: an unoccupied noise-free tick from the defaults keeps
zone 0 above setpoint minus 1, and its reheat valve stays at 0. -/
theorem C7_reheat_rule_witness :
    AtOrAboveBand 0 BuildingState.init [envUnocc] ∧
    (updateSeq BuildingState.init [envUnocc]).vav_reheat_valves 0 =
      max 0 (BuildingState.init.vav_reheat_valves 0 -
        5 * (([envUnocc] : List Env).length : ℚ)) ∧
    (BuildingState.init.update envUnocc).vav_reheat_valves 0 =
      max 0 (BuildingState.init.vav_reheat_valves 0 - 5) := by
  have hband : AtOrAboveBand 0 BuildingState.init [envUnocc] := by
    refine ⟨?_, trivial⟩
    rw [(update_reheat_rule BuildingState.init envUnocc 0).1,
      (update_reheat_rule BuildingState.init envUnocc 0).2.1]
    norm_num [zoneNewTemp, zoneNewDamper, zone_load_calc,
      BuildingState.update_occupancy, BuildingState.update_outdoor_temp,
      BuildingState.update_ahu, BuildingState.init, envUnocc, sumZones,
      INTERVAL, min_def, max_def]
  exact ⟨hband,
    (C7_reheat_rule BuildingState.init envUnocc 0).2 [envUnocc]
      (by norm_num [BuildingState.init]) hband,
    (C7_reheat_rule BuildingState.init envUnocc 0).1.2 hband.1⟩

/-- C8: total power of every tick contains the fan power computed by the
cubic affinity law `(fan_speed/100)^3 * 15`, added to the chiller, reheat and
misc terms; at fan speed exactly 100 the law gives exactly 15 kW. -/
theorem C8_fan_power_law (s : BuildingState) (e : Env) :
    (s.update e).total_power =
      ahu_fan_power ((s.update e).ahu_fan_speed) +
        (s.update e).ahu_cooling_valve / 100 * 80 +
        sumZones ((s.update e).vav_reheat_valves) / 100 * 2 +
        ((if (s.update e).is_occupied then (50 : ℚ) else 10) + e.miscNoise) ∧
    (∀ f : ℚ, ahu_fan_power f = (f / 100) ^ 3 * 15) ∧
    ahu_fan_power 100 = 15 :=
  ⟨rfl, fun _ => rfl, by norm_num [ahu_fan_power]⟩

/-- C9: the AHU fan-speed and cooling-valve output points are sensor-direction
in effect: whatever was written into them externally, after update_objects
both points carry the physics-computed state values, and the state fields are
untouched by the sync. -/
theorem C9_ahu_outputs_transient (s : BuildingState) (o : AHUObjects) (v w : ℚ) :
    ((AHUProfile.update_objects s { o with fan_speed := v, cooling_valve := w }).2).fan_speed
        = s.ahu_fan_speed ∧
    ((AHUProfile.update_objects s { o with fan_speed := v, cooling_valve := w }).2).cooling_valve
        = s.ahu_cooling_valve ∧
    ((AHUProfile.update_objects s { o with fan_speed := v, cooling_valve := w }).1).ahu_fan_speed
        = s.ahu_fan_speed ∧
    ((AHUProfile.update_objects s { o with fan_speed := v, cooling_valve := w }).1).ahu_cooling_valve
        = s.ahu_cooling_valve :=
  ⟨rfl, rfl, rfl, rfl⟩

/-- C10: frame property of every profile sync: update_objects writes at most
the profile's commandable setpoint field into BuildingState; the chiller and
meter syncs write nothing at all. -/
theorem C10_sync_frame (s : BuildingState) (oa : AHUObjects) (i : Fin 6)
    (ov : VAVObjects) (oc : ChillerObjects) (om : MeterObjects) (nz : ℚ) :
    (AHUProfile.update_objects s oa).1 =
      { s with ahu_supply_air_setpoint := oa.supply_air_setpoint } ∧
    (VAVProfile.update_objects i s ov).1 =
      { s with vav_zone_setpoints :=
          Function.update s.vav_zone_setpoints i ov.zone_setpoint } ∧
    (ChillerProfile.update_objects s oc).1 = s ∧
    (MeterProfile.update_objects nz s om).1 = s :=
  ⟨rfl, rfl, rfl, rfl⟩

/-- C5 evaluation: the selector dispatch accepts every documented selector,
rejects strings outside the vav family with a ValueError, but parses any
integer after "vav": "vav9" constructs a profile and then dies with an
IndexError inside create_objects, and "vav-1" is accepted outright (Python
negative indexing), creating all six points. -/
theorem C5_selector_eval :
    buildingSimulatorInit BuildingState.init "ahu" = InitOutcome.ok ProfileKind.ahu ∧
    buildingSimulatorInit BuildingState.init "vav0" =
      InitOutcome.ok (ProfileKind.vav 0 1 "North") ∧
    buildingSimulatorInit BuildingState.init "vav1" =
      InitOutcome.ok (ProfileKind.vav 1 1 "South") ∧
    buildingSimulatorInit BuildingState.init "vav2" =
      InitOutcome.ok (ProfileKind.vav 2 2 "North") ∧
    buildingSimulatorInit BuildingState.init "vav3" =
      InitOutcome.ok (ProfileKind.vav 3 2 "South") ∧
    buildingSimulatorInit BuildingState.init "vav4" =
      InitOutcome.ok (ProfileKind.vav 4 3 "North") ∧
    buildingSimulatorInit BuildingState.init "vav5" =
      InitOutcome.ok (ProfileKind.vav 5 3 "South") ∧
    buildingSimulatorInit BuildingState.init "chiller" = InitOutcome.ok ProfileKind.chiller ∧
    buildingSimulatorInit BuildingState.init "meter" = InitOutcome.ok ProfileKind.meter ∧
    buildingSimulatorInit BuildingState.init "furnace" = InitOutcome.valueError ∧
    buildingSimulatorInit BuildingState.init "vav9" = InitOutcome.indexError ∧
    buildingSimulatorInit BuildingState.init "vav-1" =
      InitOutcome.ok (ProfileKind.vav (-1) 0 "South") := by
  decide

/-- C6: the running loop catches any exception of a tick body (physics update
or point sync), keeps whatever state mutations completed before the
exception, and continues with the next tick. -/
theorem C6_loop_continues {σ : Type} (upd sync : σ → TickOutcome σ) (s : σ) (n : ℕ) :
    update_loop upd sync (n + 1) s =
      update_loop upd sync n (TickOutcome.state (tick_body upd sync s)) ∧
    (∀ sp, upd s = TickOutcome.error sp →
      TickOutcome.state (tick_body upd sync s) = sp) ∧
    (∀ s1 sp, upd s = TickOutcome.ok s1 → sync s1 = TickOutcome.error sp →
      TickOutcome.state (tick_body upd sync s) = sp) ∧
    (∀ s1 s2, upd s = TickOutcome.ok s1 → sync s1 = TickOutcome.ok s2 →
      TickOutcome.state (tick_body upd sync s) = s2) := by
  refine ⟨rfl, fun sp h => ?_, fun s1 sp h1 h2 => ?_, fun s1 s2 h1 h2 => ?_⟩
  · simp [tick_body, h, TickOutcome.state]
  · simp [tick_body, h1, h2, TickOutcome.state]
  · simp [tick_body, h1, h2, TickOutcome.state]

/-- Witness for C6: a physics update that always raises after setting the
counter to 7 leaves 7 behind, and the loop still performs its iteration. -/
theorem C6_loop_continues_witness :
    update_loop (fun k : ℕ => TickOutcome.error (k + 7))
        (fun k : ℕ => TickOutcome.ok k) 1 0 =
      update_loop (fun k : ℕ => TickOutcome.error (k + 7))
        (fun k : ℕ => TickOutcome.ok k) 0 7 ∧
    TickOutcome.state
        (tick_body (fun k : ℕ => TickOutcome.error (k + 7))
          (fun k : ℕ => TickOutcome.ok k) 0) = 7 :=
  ⟨(C6_loop_continues (fun k : ℕ => TickOutcome.error (k + 7))
      (fun k : ℕ => TickOutcome.ok k) 0 0).1,
   (C6_loop_continues (fun k : ℕ => TickOutcome.error (k + 7))
      (fun k : ℕ => TickOutcome.ok k) 0 0).2.1 7 rfl⟩

/-- C4 counterexample: with occupancy true, all noise zero and the sine value
0 (6 AM), one tick from the defaults yields a mixed-air temperature of
72.6 degrees, not the claimed 74.6: update overwrites the default outdoor
temperature 85 with the sinusoidal model value before update_ahu reads it. -/
theorem C4_mixed_counterexample :
    (BuildingState.init.update envOcc).ahu_mixed_air_temp = 363 / 5 ∧
    (BuildingState.init.update envOcc).ahu_mixed_air_temp ≠ 373 / 5 := by
  constructor
  · rw [update_mixed, update_ahu_mixed]
    norm_num [BuildingState.update_occupancy, BuildingState.update_outdoor_temp,
      BuildingState.init, envOcc]
  · rw [update_mixed, update_ahu_mixed]
    norm_num [BuildingState.update_occupancy, BuildingState.update_outdoor_temp,
      BuildingState.init, envOcc]

/-- C4 amended: with occupancy true, one tick from the defaults yields a
mixed-air temperature of `72 * 0.8 + T * 0.2`, where T is the outdoor
temperature recomputed by the same tick (75 plus 15 times the sine value plus
noise) — not the constructor default 85. -/
theorem C4_mixed_formula (e : Env) (h : e.occupied = true) :
    (BuildingState.init.update e).ahu_mixed_air_temp =
      72 * (100 - 20) / 100 + (75 + 15 * e.sinVal + e.outdoorNoise) * 20 / 100 := by
  rw [update_mixed, update_ahu_mixed]
  simp only [BuildingState.update_occupancy, BuildingState.update_outdoor_temp,
    BuildingState.init]
  simp [h]

/-- Witness for C4 amended at the concrete noise-free occupied tick. -/
theorem C4_mixed_formula_witness :
    (BuildingState.init.update envOcc).ahu_mixed_air_temp =
      72 * (100 - 20) / 100 + (75 + 15 * envOcc.sinVal + envOcc.outdoorNoise) * 20 / 100 :=
  C4_mixed_formula envOcc rfl
